import Mathlib

set_option maxRecDepth 10000

/-!
Verification of the PowerGrid AI Tutor retrieval-augmented-generation pipeline.

The definitions below are a shallow embedding of the repository's Python
sources: `src/rag/retrieval.py` (Retriever), `src/rag/query_expander.py`
(QueryExpander), `src/rag/reranker.py` (Reranker), `src/rag/pipeline.py`
(RAGPipeline), `src/rag/generator.py` (Generator) and `app/main.py`
(PowerGridTutorUI.chat).  External collaborators (the FAISS nearest-neighbour
index and the LLM completion service) are modelled as explicit function
parameters: the similarity engine as a full similarity-ranked list of nodes
per query (a retriever with `similarity_top_k = k` returns its first `k`
elements), and each LLM call as a function returning `Except` to model a
possibly raised exception.
-/

namespace PowerGrid

/-- A retrieved chunk as seen by the pipeline: `NodeWithScore` in the source.
`score` is the similarity score attached by the vector store, `metadata`
the chunk's metadata dict (string keys and values). -/
structure Node where
  id : Nat
  score : ℚ
  metadata : List (String × String)
deriving DecidableEq, Repr

/-- Python `metadata[key]` guarded by `key in metadata`: association-list
lookup returning `none` for a missing key. -/
def metaLookup (m : List (String × String)) (k : String) : Option String :=
  (m.find? (fun p => p.1 = k)).map (fun p => p.2)

/-- One filter pair test from `Retriever._filter_nodes_by_metadata`:
`key not in node.node.metadata or node.node.metadata[key] != value`
negated, i.e. the pair matches iff the key is present with exactly the
required value. -/
def pairMatches (m : List (String × String)) (kv : String × String) : Bool :=
  match metaLookup m kv.1 with
  | some v => v = kv.2
  | none => false

/-- `matches_all` of `Retriever._filter_nodes_by_metadata`: a node survives
iff every filter pair matches (conjunction). -/
def matchesFilters (fs : List (String × String)) (n : Node) : Bool :=
  fs.all (pairMatches n.metadata)

/-- `Retriever._filter_nodes_by_metadata`: keep, in order, the nodes
matching all filter criteria. -/
def filterNodesByMetadata (nodes : List Node) (fs : List (String × String)) : List Node :=
  nodes.filter (matchesFilters fs)

/-- `Retriever.retrieve`.  `ranked` is the vector store's full
similarity-ranked node list for the query (the external engine; a retriever
built with `similarity_top_k = k` yields `ranked.take k`).  With truthy
`filters` the source over-fetches `top_k * 3` nodes, filters them by
metadata and keeps the first `top_k`; with `None` (or an empty dict, which
is falsy in Python) it returns the plain top `top_k`. -/
def retrieve (ranked : List Node) (top_k : Nat)
    (filters : Option (List (String × String))) : List Node :=
  match filters with
  | none => ranked.take top_k
  | some fs =>
    if fs.isEmpty then ranked.take top_k
    else (filterNodesByMetadata (ranked.take (top_k * 3)) fs).take top_k

/-! ### Query expansion (`src/rag/query_expander.py`) -/

/-- The term parsing shared by `QueryExpander.expand` and
`QueryExpander.expand_with_details`: strip the LLM response, split on
newlines, strip each line, keep non-empty lines not starting with `#`,
truncate to `max_expansions`. -/
def parseExpansionTerms (response : String) (maxExpansions : Nat) : List String :=
  ((((response.trim).splitOn "\n").map String.trim).filter
    (fun t => !t.isEmpty && !t.startsWith "#")).take maxExpansions

/-- The expanded query built by `QueryExpander.expand`:
`f"{query} {' '.join(expansion_terms)}"` when terms were produced, the
original query otherwise. -/
def expandedQueryOf (query : String) (terms : List String) : String :=
  if terms.isEmpty then query else query ++ " " ++ String.intercalate " " terms

/-- The dict returned by `QueryExpander.expand_with_details`. -/
structure ExpansionResult where
  original_query : String
  expansion_terms : List String
  expanded_query : String
deriving DecidableEq, Repr

/-- `QueryExpander.expand_with_details`, with the LLM response text passed
in explicitly (the source obtains it from `Settings.llm.complete`). -/
def expandWithDetails (query response : String) (maxExpansions : Nat) : ExpansionResult :=
  let terms := parseExpansionTerms response maxExpansions
  ⟨query, terms, expandedQueryOf query terms⟩

/-- `QueryExpander.expand`: same computation, returning only the expanded
query string. -/
def expandStr (query response : String) (maxExpansions : Nat) : String :=
  expandedQueryOf query (parseExpansionTerms response maxExpansions)

/-- `QueryExpander.expand` as the pipeline sees it: the single outbound LLM
call may raise (`llm` returns `Except`), and the source wraps it in no
try/except, so an LLM error escapes `expand` unchanged. -/
def expandE {ε : Type} (llm : String → Except ε String) (query : String)
    (maxExpansions : Nat) : Except ε String :=
  match llm query with
  | Except.error e => Except.error e
  | Except.ok response => Except.ok (expandStr query response maxExpansions)

/-! ### Reranker (`src/rag/reranker.py`) and pipeline (`src/rag/pipeline.py`) -/

/-- `Reranker.rerank`: `if not nodes: return nodes`, otherwise one
`LLMRerank.postprocess_nodes` call (modelled by `llm`), wrapped in no
try/except, so an LLM error escapes `rerank` unchanged. -/
def rerankE {ε : Type} (llm : List Node → String → Except ε (List Node))
    (nodes : List Node) (query : String) : Except ε (List Node) :=
  if nodes.isEmpty then Except.ok nodes else llm nodes query

/-- `RAGPipeline.retrieve_only`:  expand the query when query expansion is
enabled, retrieve (with optional metadata filters) on the search query,
then rerank (against the original question, as the source does) when
reranking is enabled.  `store` maps a query string to the vector store's
full similarity ranking for it; LLM failures propagate because the source
catches nothing. -/
def retrieveOnly {ε : Type} (expLLM : String → Except ε String)
    (rrLLM : List Node → String → Except ε (List Node))
    (store : String → List Node) (useExpansion useReranking : Bool)
    (maxExpansions top_k : Nat) (question : String)
    (filters : Option (List (String × String))) : Except ε (List Node) := do
  let searchQuery ← if useExpansion then expandE expLLM question maxExpansions
                    else pure question
  let nodes := retrieve (store searchQuery) top_k filters
  if useReranking then rerankE rrLLM nodes question else pure nodes

/-! ### Stage ordering of the orchestrator (`src/rag/pipeline.py`) -/

/-- The pipeline stages named by the spec's state machine. -/
inductive Stage where
  | expanded
  | retrieved
  | filtered
  | reranked
  | generated
deriving DecidableEq, Repr

/-- The sequence of stages `RAGPipeline.retrieve_only` executes, read off
its control flow: expansion when enabled, then retrieval, then (inside
`Retriever.retrieve`) metadata filtering when filters are truthy, then
reranking when enabled. -/
def retrieveOnlyTrace (useExpansion useReranking hasFilters : Bool) : List Stage :=
  (if useExpansion then [Stage.expanded] else []) ++ [Stage.retrieved] ++
  (if hasFilters then [Stage.filtered] else []) ++
  (if useReranking then [Stage.reranked] else [])

/-- The sequence of stages `RAGPipeline.query` executes, read off its
control flow.  With truthy filters it expands (the result is dropped),
delegates to `retrieve_only` and then generates from the returned nodes.
Without filters it expands (the result is dropped) and calls
`Generator.generate`, whose query engine retrieves internally and
generates; neither the pipeline's retriever nor its reranker is invoked
on that path. -/
def queryTrace (useExpansion useReranking hasFilters : Bool) : List Stage :=
  if hasFilters then
    (if useExpansion then [Stage.expanded] else []) ++
    retrieveOnlyTrace useExpansion useReranking true ++ [Stage.generated]
  else
    (if useExpansion then [Stage.expanded] else []) ++
    [Stage.retrieved, Stage.generated]

/-! ### Refusal string and source display (`src/rag/generator.py`, `app/main.py`) -/

/-- The fixed refusal sentence that `Generator.__init__` instructs the LLM
to emit verbatim for questions unrelated to the domain (instruction 4 of
`qa_prompt_str`). -/
def qaRefusal : String :=
  "I\'m here to help with questions about electrical engineering, renewable energy, and power systems. This topic is outside my area of expertise, but I\'d be happy to discuss solar panels, wind turbines, batteries, smart grids, or any related electrical engineering concepts. What would you like to learn about?"

/-- Matching of a pattern against the head of a character list. -/
def headMatches : List Char → List Char → Bool
  | [], _ => true
  | _ :: _, [] => false
  | a :: as, b :: bs => a = b && headMatches as bs

/-- Substring occurrence on character lists. -/
def hasSub : List Char → List Char → Bool
  | [], pat => pat.isEmpty
  | h :: t, pat => headMatches pat (h :: t) || hasSub t pat

/-- Python's `pat in s` substring test. -/
def pyContains (s pat : String) : Bool := hasSub s.data pat.data

/-- Python's `s.lower()` (ASCII; every string involved is ASCII). -/
def pyLower (s : String) : String := ⟨s.data.map Char.toLower⟩

/-- The guard in `PowerGridTutorUI.chat` deciding whether the sources block
is appended to the reply: `if sources and "outside my area of expertise"
not in answer.lower() and "outside the scope" not in answer.lower()`. -/
def showSources (answer : String) (sources : List Node) : Bool :=
  !sources.isEmpty &&
  !pyContains (pyLower answer) "outside my area of expertise" &&
  !pyContains (pyLower answer) "outside the scope"

/-- The source list `PowerGridTutorUI.chat` delivers to the end user: the
first three retrieved sources when the guard passes, nothing otherwise
(the reply then consists of the answer text alone). -/
def chatDeliveredSources (answer : String) (sources : List Node) : List Node :=
  if showSources answer sources then sources.take 3 else []

/-! ### Reciprocal-rank fusion (hybrid retriever) -/

/-- 1-based rank of a chunk id in a ranking, `none` when absent. -/
def rankOf (c : Nat) (l : List Nat) : Option Nat :=
  (l.findIdx? (fun x => x = c)).map (fun i => i + 1)

/-- Modelled from the spec: one list's contribution to the fused score,
`1/(κ + rank)` when the chunk appears in the list and `0` otherwise.  The
hybrid fusion retriever itself is not under `src/` (pipeline and test
scripts reference it through `use_hybrid`, but `retrieval.py` carries no
hybrid code), so the reciprocal-rank fusion is taken from the spec's
formula. -/
def rrfContrib (κ : ℚ) (r : Option Nat) : ℚ :=
  match r with
  | some k => 1 / (κ + (k : ℚ))
  | none => 0

/-- Modelled from the spec: `fused_score = Σ 1/(κ + rank_in_list)` over
whichever of the lexical and semantic rankings contain the chunk. -/
def fusedScore (κ : ℚ) (lex sem : List Nat) (c : Nat) : ℚ :=
  rrfContrib κ (rankOf c lex) + rrfContrib κ (rankOf c sem)

/-! ### Concrete data used to instantiate the theorems -/

/-- A chunk with no metadata, highest similarity. -/
def exNode1 : Node := ⟨1, 2, []⟩

/-- A solar-tagged chunk, second by similarity. -/
def exNode2 : Node := ⟨2, 1, [("topic", "solar")]⟩

/-- A two-chunk similarity ranking. -/
def exRanked : List Node := [exNode1, exNode2]

/-- A single-pair metadata filter. -/
def exFilters : List (String × String) := [("topic", "solar")]

/-- A vector store answering every query with `exRanked`. -/
def exStore : String → List Node := fun _ => exRanked

/-- An expansion LLM that succeeds (echoes the query as its response). -/
def exOkExp : String → Except Unit String := fun q => Except.ok q

/-- An expansion LLM whose call raises (service unavailable). -/
def exFailExp : String → Except Unit String := fun _ => Except.error ()

/-- A reranking LLM whose call raises (service unavailable). -/
def exFailRerank : List Node → String → Except Unit (List Node) :=
  fun _ _ => Except.error ()

/-! ### Helper lemmas -/

theorem rankOf_head {c : Nat} {l : List Nat} (h : l.head? = some c) :
    rankOf c l = some 1 := by
  cases l with
  | nil => exact absurd h (by simp)
  | cons a t =>
    have ha : a = c := by simpa using h
    subst ha
    simp [rankOf, List.findIdx?]

theorem metaLookup_of_matches {fs : List (String × String)} {n : Node}
    (h : matchesFilters fs n = true) {kv : String × String} (hkv : kv ∈ fs) :
    metaLookup n.metadata kv.1 = some kv.2 := by
  have hp : pairMatches n.metadata kv = true := by
    have := List.all_eq_true.mp h kv hkv
    simpa using this
  unfold pairMatches at hp
  cases hl : metaLookup n.metadata kv.1 with
  | none => rw [hl] at hp; simp at hp
  | some v =>
    rw [hl] at hp
    simp only [decide_eq_true_eq] at hp
    rw [hp]

theorem matches_of_mem_retrieve {ranked : List Node} {fs : List (String × String)}
    {top_k : Nat} {n : Node} (hfs : fs ≠ [])
    (hn : n ∈ retrieve ranked top_k (some fs)) :
    matchesFilters fs n = true := by
  simp only [retrieve] at hn
  rw [if_neg (by simpa using hfs)] at hn
  have h2 := List.take_subset _ _ hn
  unfold filterNodesByMetadata at h2
  exact List.of_mem_filter h2

/-! ### Claim theorems -/

/-- Claim C7: for every query (similarity ranking), non-empty filter
mapping and `top_k`, every candidate returned by `Retriever.retrieve`
satisfies every filter key/value pair by exact equality on its chunk
metadata: the filter is a conjunction. -/
theorem retrieved_candidates_match_all_filters (ranked : List Node)
    (fs : List (String × String)) (top_k : Nat) (n : Node) (kv : String × String)
    (hfs : fs ≠ []) (hn : n ∈ retrieve ranked top_k (some fs)) (hkv : kv ∈ fs) :
    metaLookup n.metadata kv.1 = some kv.2 :=
  metaLookup_of_matches (matches_of_mem_retrieve hfs hn) hkv

/-- Witness for C7 at a concrete input: the solar-tagged chunk returned by
the filtered retrieval carries exactly the required metadata value. -/
theorem retrieved_candidates_match_all_filters_witness :
    (exFilters ≠ [] ∧ exNode2 ∈ retrieve exRanked 1 (some exFilters) ∧
      ("topic", "solar") ∈ exFilters) ∧
    metaLookup exNode2.metadata "topic" = some "solar" :=
  ⟨⟨by decide, by decide, by decide⟩,
   retrieved_candidates_match_all_filters exRanked exFilters 1 exNode2 ("topic", "solar")
     (by decide) (by decide) (by decide)⟩

/-- Claim C10: a candidate whose chunk metadata lacks a key named in the
filter mapping is excluded from the filtered result; the missing field is
a non-match, not a failure (the embedded filter is a total function, as is
the source, which tests `key not in metadata` before indexing). -/
theorem missing_metadata_key_excluded (ranked : List Node)
    (fs : List (String × String)) (top_k : Nat) (n : Node) (kv : String × String)
    (hkv : kv ∈ fs) (hmiss : metaLookup n.metadata kv.1 = none) :
    n ∉ retrieve ranked top_k (some fs) := by
  intro hn
  have hfs : fs ≠ [] := by
    rintro rfl
    exact absurd hkv (List.not_mem_nil _)
  have h := metaLookup_of_matches (matches_of_mem_retrieve hfs hn) hkv
  rw [hmiss] at h
  exact Option.noConfusion h

/-- Witness for C10 at a concrete input: the metadata-less chunk, although
first by similarity, is excluded by the topic filter. -/
theorem missing_metadata_key_excluded_witness :
    (("topic", "solar") ∈ exFilters ∧ metaLookup exNode1.metadata "topic" = none) ∧
    exNode1 ∉ retrieve exRanked 1 (some exFilters) :=
  ⟨⟨by decide, by decide⟩,
   missing_metadata_key_excluded exRanked exFilters 1 exNode1 ("topic", "solar")
     (by decide) (by decide)⟩

/-- Claim C8: with the vector store's ranking sorted by score descending
(its contract), `Retriever.retrieve` returns at most `top_k` nodes, still
sorted by score descending, for any filter argument. -/
theorem retrieve_length_le_topk_and_sorted (ranked : List Node) (top_k : Nat)
    (filters : Option (List (String × String)))
    (hsorted : ranked.Pairwise (fun a b => b.score ≤ a.score)) :
    (retrieve ranked top_k filters).length ≤ top_k ∧
    (retrieve ranked top_k filters).Pairwise (fun a b => b.score ≤ a.score) := by
  have hsub : (retrieve ranked top_k filters).Sublist ranked := by
    cases filters with
    | none => exact List.take_sublist _ _
    | some fs =>
      simp only [retrieve]
      by_cases he : fs.isEmpty
      · rw [if_pos he]; exact List.take_sublist _ _
      · rw [if_neg he]
        exact ((List.take_sublist _ _).trans
          (List.filter_sublist _)).trans (List.take_sublist _ _)
  refine ⟨?_, hsorted.sublist hsub⟩
  cases filters with
  | none => exact List.length_take_le _ _
  | some fs =>
    simp only [retrieve]
    by_cases he : fs.isEmpty
    · rw [if_pos he]; exact List.length_take_le _ _
    · rw [if_neg he]; exact List.length_take_le _ _

/-- Witness for C8 at a concrete input. -/
theorem retrieve_length_le_topk_and_sorted_witness :
    exRanked.Pairwise (fun a b => b.score ≤ a.score) ∧
    ((retrieve exRanked 1 (some exFilters)).length ≤ 1 ∧
      (retrieve exRanked 1 (some exFilters)).Pairwise (fun a b => b.score ≤ a.score)) :=
  ⟨by decide, retrieve_length_le_topk_and_sorted exRanked 1 (some exFilters) (by decide)⟩

/-- Claim C3 counterexample: with `top_k = 1`, the topic filter and the
two-chunk ranking, the filtered call returns the solar chunk, which the
unfiltered call (returning only the one nearest chunk) does not contain:
the filtered candidate set is not a subset of the unfiltered one, because
the filtered path draws from an over-fetched `top_k * 3` ranking. -/
theorem filtered_not_subset_of_unfiltered :
    exNode2 ∈ retrieve exRanked 1 (some exFilters) ∧
    exNode2 ∉ retrieve exRanked 1 none := by decide

/-- Claim C3 (amended): every candidate returned by the filtered retrieval
is contained in the unfiltered candidate set produced by the same query at
`top_k * 3` — the over-fetched base ranking the source filters. -/
theorem filtered_subset_of_overfetched_unfiltered (ranked : List Node)
    (fs : List (String × String)) (top_k : Nat) (n : Node)
    (hn : n ∈ retrieve ranked top_k (some fs)) :
    n ∈ retrieve ranked (top_k * 3) none := by
  simp only [retrieve] at hn ⊢
  by_cases he : fs.isEmpty
  · rw [if_pos he] at hn
    have htt : ranked.take top_k = (ranked.take (top_k * 3)).take top_k := by
      rw [List.take_take, Nat.min_eq_left (by omega)]
    rw [htt] at hn
    exact List.take_subset _ _ hn
  · rw [if_neg he] at hn
    have h2 := List.take_subset _ _ hn
    unfold filterNodesByMetadata at h2
    exact List.mem_of_mem_filter h2

/-- Witness for the amended C3 at a concrete input. -/
theorem filtered_subset_of_overfetched_unfiltered_witness :
    exNode2 ∈ retrieve exRanked 1 (some exFilters) ∧
    exNode2 ∈ retrieve exRanked (1 * 3) none :=
  ⟨by decide, filtered_subset_of_overfetched_unfiltered exRanked exFilters 1 exNode2 (by decide)⟩

/-- Claim C2: when the generated answer text equals the fixed refusal
sentence of `Generator.__init__`, the reply `PowerGridTutorUI.chat`
delivers to the end user carries no source list, whatever sources were
retrieved: the refusal contains "outside my area of expertise", so the
chat guard suppresses the sources block. -/
theorem refusal_answer_delivers_no_sources (sources : List Node) :
    chatDeliveredSources qaRefusal sources = [] := by
  have h : pyContains (pyLower qaRefusal) "outside my area of expertise" = true := by decide
  simp [chatDeliveredSources, showSources, h]

/-- Claim C9: for every query, LLM response and `max_expansions`, query
expansion returns at most `max_expansions` terms, the expanded query
extends the original query (the original is a prefix of it), and when no
terms are produced the expanded query is exactly the original. -/
theorem expansion_bounds_and_extends_query (query response : String) (maxExpansions : Nat) :
    (expandWithDetails query response maxExpansions).expansion_terms.length ≤ maxExpansions ∧
    (∃ rest, (expandWithDetails query response maxExpansions).expanded_query = query ++ rest) ∧
    ((expandWithDetails query response maxExpansions).expansion_terms = [] →
      (expandWithDetails query response maxExpansions).expanded_query = query) := by
  show (parseExpansionTerms response maxExpansions).length ≤ maxExpansions ∧
    (∃ rest, expandedQueryOf query (parseExpansionTerms response maxExpansions) = query ++ rest) ∧
    (parseExpansionTerms response maxExpansions = [] →
      expandedQueryOf query (parseExpansionTerms response maxExpansions) = query)
  refine ⟨List.length_take_le _ _, ?_, ?_⟩
  · by_cases h : (parseExpansionTerms response maxExpansions).isEmpty
    · exact ⟨"", by simp [expandedQueryOf, h]⟩
    · refine ⟨" " ++ String.intercalate " " (parseExpansionTerms response maxExpansions), ?_⟩
      simp [expandedQueryOf, h, String.append_assoc]
  · intro h0
    simp [expandedQueryOf, h0]

/-- Claim C4 counterexample: with a non-empty candidate set retrieved and
the reranking LLM unavailable, `retrieve_only` (reranking enabled)
surfaces the error — the query aborts instead of falling back to the
pre-rerank fused order. -/
theorem rerank_failure_aborts_query :
    retrieveOnly exOkExp exFailRerank exStore false true 5 5 "q" none = Except.error () ∧
    retrieve (exStore "q") 5 none ≠ [] := by
  exact ⟨rfl, by decide⟩

/-- Claim C4 (amended): an LLM failure while reranking a non-empty
candidate batch propagates out of `Reranker.rerank` and
`RAGPipeline.retrieve_only` uncaught, aborting the query with that error;
no fallback to the pre-rerank order occurs. -/
theorem rerank_failure_error_propagates {ε : Type} (expLLM : String → Except ε String)
    (rrLLM : List Node → String → Except ε (List Node)) (store : String → List Node)
    (maxExpansions top_k : Nat) (q : String)
    (filters : Option (List (String × String))) (e : ε)
    (hne : (retrieve (store q) top_k filters).isEmpty = false)
    (hfail : rrLLM (retrieve (store q) top_k filters) q = Except.error e) :
    retrieveOnly expLLM rrLLM store false true maxExpansions top_k q filters
      = Except.error e := by
  show rerankE rrLLM (retrieve (store q) top_k filters) q = Except.error e
  rw [rerankE, hne, hfail]
  rfl

/-- Witness for the amended C4 at a concrete input. -/
theorem rerank_failure_error_propagates_witness :
    ((retrieve (exStore "qq") 5 none).isEmpty = false ∧
      exFailRerank (retrieve (exStore "qq") 5 none) "qq" = Except.error ()) ∧
    retrieveOnly exOkExp exFailRerank exStore false true 5 5 "qq" none = Except.error () :=
  ⟨⟨by decide, rfl⟩,
   rerank_failure_error_propagates exOkExp exFailRerank exStore 5 5 "qq" none ()
     (by decide) rfl⟩

/-- Claim C6 counterexample: with the expansion LLM unavailable and
candidates available for the unexpanded query, `retrieve_only` (expansion
enabled) surfaces the error — the query aborts instead of continuing with
the unexpanded original query. -/
theorem expansion_failure_aborts_query :
    retrieveOnly exFailExp exFailRerank exStore true false 5 5 "q" none = Except.error () ∧
    Except.error () ≠ Except.ok (retrieve (exStore "q") 5 none) := by
  exact ⟨rfl, fun h => Except.noConfusion h⟩

/-- Claim C6 (amended): an LLM failure during query expansion is not
swallowed into a guessed expansion — it propagates out of
`QueryExpander.expand` as the raw error — but the pipeline catches
nothing, so the query aborts with that error rather than continuing with
the unexpanded original query. -/
theorem expansion_failure_error_propagates {ε : Type} (expLLM : String → Except ε String)
    (rrLLM : List Node → String → Except ε (List Node)) (store : String → List Node)
    (useReranking : Bool) (maxExpansions top_k : Nat) (q : String)
    (filters : Option (List (String × String))) (e : ε)
    (hfail : expLLM q = Except.error e) :
    retrieveOnly expLLM rrLLM store true useReranking maxExpansions top_k q filters
      = Except.error e := by
  have h1 : expandE expLLM q maxExpansions = Except.error e := by
    unfold expandE
    rw [hfail]
  show (expandE expLLM q maxExpansions).bind _ = Except.error e
  rw [h1]
  rfl

/-- Witness for the amended C6 at a concrete input. -/
theorem expansion_failure_error_propagates_witness :
    exFailExp "qq" = Except.error () ∧
    retrieveOnly exFailExp exFailRerank exStore true false 5 5 "qq" none = Except.error () :=
  ⟨rfl, expansion_failure_error_propagates exFailExp exFailRerank exStore false 5 5 "qq" none () rfl⟩

/-- Claim C5 (code bug): on a pipeline with query expansion and reranking
both enabled, `RAGPipeline.query` on a filterless question executes
expansion (discarding its result), then generation through the query
engine's internal retrieval — the reranking stage never runs before
generation, contradicting the claimed flag semantics. -/
theorem unfiltered_query_skips_reranking :
    queryTrace true true false = [Stage.expanded, Stage.retrieved, Stage.generated] := by
  decide

/-- Claim C1: for any smoothing constant `κ > 0` and any rankings, a chunk
ranked 1st in both the lexical and the semantic list gets fused score
`2/(κ+1)`, strictly greater than the `1/(κ+1)` of a chunk ranked 1st in
exactly one list and absent from the other. -/
theorem rrf_first_in_both_beats_first_in_one (κ : ℚ)
    (lex1 sem1 lex2 sem2 : List Nat) (c d : Nat) (hκ : 0 < κ)
    (hl : lex1.head? = some c) (hs : sem1.head? = some c)
    (hd : (lex2.head? = some d ∧ rankOf d sem2 = none) ∨
          (sem2.head? = some d ∧ rankOf d lex2 = none)) :
    fusedScore κ lex2 sem2 d < fusedScore κ lex1 sem1 c := by
  have hpos : 0 < 1 / (κ + 1) := by positivity
  have h1 : fusedScore κ lex1 sem1 c = 1 / (κ + 1) + 1 / (κ + 1) := by
    rw [fusedScore, rankOf_head hl, rankOf_head hs]
    norm_num [rrfContrib]
  rcases hd with ⟨h2, h3⟩ | ⟨h2, h3⟩
  · have h4 : fusedScore κ lex2 sem2 d = 1 / (κ + 1) := by
      rw [fusedScore, rankOf_head h2, h3]
      norm_num [rrfContrib]
    rw [h1, h4]
    linarith
  · have h4 : fusedScore κ lex2 sem2 d = 1 / (κ + 1) := by
      rw [fusedScore, rankOf_head h2, h3]
      norm_num [rrfContrib]
    rw [h1, h4]
    linarith

/-- Witness for C1 at a concrete input: `κ = 60`, chunk 5 first in both
lists, chunk 7 first in the lexical list only. -/
theorem rrf_first_in_both_beats_first_in_one_witness :
    ((0:ℚ) < 60 ∧ ([5] : List Nat).head? = some 5 ∧ ([5] : List Nat).head? = some 5 ∧
      (([7] : List Nat).head? = some 7 ∧ rankOf 7 [9] = none)) ∧
    fusedScore 60 [7] [9] 7 < fusedScore 60 [5] [5] 5 :=
  ⟨⟨by norm_num, rfl, rfl, rfl, by decide⟩,
   rrf_first_in_both_beats_first_in_one 60 [5] [5] [7] [9] 5 7 (by norm_num) rfl rfl
     (Or.inl ⟨rfl, by decide⟩)⟩

end PowerGrid
